import Mathlib

/-!
Verification of the V2V (vehicle-to-vehicle) communication core:
a shallow embedding, in Lean 4, of the repository's Python modules

  * `src/core/spatial_data.py`        (geometry, spatial snapshots)
  * `src/core/vehicle_identity.py`    (identities, certificates)
  * `src/communication/security_manager.py`
  * `src/communication/proximity_detector.py`
  * `src/communication/v2v_protocol.py`

together with theorems settling the behavioural claims about those modules.

Modelling conventions, used consistently below:

  * Python `dict`s are association lists (`List (κ × α)`); lookup returns the
    first binding.  Python dicts preserve insertion order; the canonical
    insertion used here (new binding in front, stale binding dropped) differs
    only in iteration order, and every property proved below is independent of
    that order.
  * Wall-clock instants (`datetime.now(timezone.utc)`, `time.time()`) are an
    explicit integer parameter `now` (seconds); each operation is modelled as
    executing at one instant, so the several clock reads inside one Python
    call coincide.
  * Byte strings produced by the `cryptography` library are modelled
    symbolically: an RSA key pair is one abstract `Nat` shared by the private
    and the public half, an AES-GCM ciphertext is the triple
    (session key, IV, plaintext) — standing for "the AES-CTR encryption of the
    serialized plaintext under that key and IV" — and the SHA-256 hash of the
    canonically serialized signed fields is the field record itself.
    Randomness (IV sampling, RSA key generation) is an explicit parameter or a
    deterministic abstract function; no proved property depends on the
    distribution of those values.
  * The GCM authentication-tag discipline of the `cryptography` library is
    modelled exactly: a decryption context constructed without a tag
    (`modes.GCM(iv)`) raises `ValueError("Authentication tag must be provided
    when decrypting.")` from `finalize()`.
-/

namespace V2V

/-! ### Association-list dictionaries -/

/-- First-match lookup in an association list (Python `d.get(k)` / `d[k]`). -/
def dlookup {κ α : Type} [DecidableEq κ] : List (κ × α) → κ → Option α
  | [], _ => none
  | p :: rest, k => if p.1 = k then some p.2 else dlookup rest k

/-- Remove every binding of key `k` (Python `del d[k]`). -/
def derase {κ α : Type} [DecidableEq κ] (l : List (κ × α)) (k : κ) : List (κ × α) :=
  l.filter (fun p => !(decide (p.1 = k)))

/-- Set key `k` to value `v` (Python `d[k] = v`), canonically: the new binding
in front and any stale binding dropped. -/
def dinsert {κ α : Type} [DecidableEq κ] (l : List (κ × α)) (k : κ) (v : α) : List (κ × α) :=
  (k, v) :: derase l k

/-- Map a function over the values of an association list, keeping keys. -/
def mapVals {κ α : Type} (l : List (κ × α)) (f : κ → α → α) : List (κ × α) :=
  l.map (fun p => (p.1, f p.1 p.2))

theorem dlookup_derase_self {κ α : Type} [DecidableEq κ] (l : List (κ × α)) (k : κ) :
    dlookup (derase l k) k = none := by
  induction l with
  | nil => rfl
  | cons p rest ih =>
    by_cases h : p.1 = k
    · simpa [derase, h] using ih
    · simpa [derase, dlookup, h] using ih

theorem dlookup_derase_ne {κ α : Type} [DecidableEq κ] (l : List (κ × α)) (k k' : κ)
    (h : k' ≠ k) : dlookup (derase l k) k' = dlookup l k' := by
  induction l with
  | nil => rfl
  | cons p rest ih =>
    by_cases hp : p.1 = k
    · have hkk : ¬ k = k' := fun hc => h hc.symm
      simp only [derase, List.filter_cons, hp, decide_True, Bool.not_true,
        Bool.false_eq_true, if_false, dlookup, hkk]
      simpa [derase] using ih
    · simp only [derase, List.filter_cons, hp, decide_False, Bool.not_false, if_true, dlookup]
      by_cases hq : p.1 = k'
      · simp [hq]
      · simp only [hq, if_false]
        simpa [derase] using ih

theorem dlookup_dinsert_self {κ α : Type} [DecidableEq κ] (l : List (κ × α)) (k : κ) (v : α) :
    dlookup (dinsert l k v) k = some v := by
  simp [dinsert, dlookup]

theorem dlookup_dinsert_ne {κ α : Type} [DecidableEq κ] (l : List (κ × α)) (k k' : κ) (v : α)
    (h : k' ≠ k) : dlookup (dinsert l k v) k' = dlookup l k' := by
  have hk : k ≠ k' := fun hc => h hc.symm
  simp [dinsert, dlookup, hk]
  exact dlookup_derase_ne l k k' h

theorem derase_derase {κ α : Type} [DecidableEq κ] (l : List (κ × α)) (k : κ) :
    derase (derase l k) k = derase l k := by
  simp [derase, List.filter_filter]

theorem dinsert_dinsert_same {κ α : Type} [DecidableEq κ] (l : List (κ × α)) (k : κ) (v : α) :
    dinsert (dinsert l k v) k v = dinsert l k v := by
  show (k, v) :: derase ((k, v) :: derase l k) k = (k, v) :: derase l k
  simp only [derase, List.filter_cons, decide_True, Bool.not_true, Bool.false_eq_true, if_false]
  have h2 := derase_derase l k
  simp only [derase] at h2
  rw [h2]

theorem dlookup_mapVals {κ α : Type} [DecidableEq κ] (l : List (κ × α)) (f : κ → α → α) (k : κ) :
    dlookup (mapVals l f) k = (dlookup l k).map (f k) := by
  induction l with
  | nil => rfl
  | cons p rest ih =>
    by_cases h : p.1 = k
    · subst h; simp [mapVals, dlookup]
    · simpa [mapVals, dlookup, h] using ih

theorem dlookup_eq_some_mem {κ α : Type} [DecidableEq κ] (l : List (κ × α)) (k : κ) (v : α)
    (h : dlookup l k = some v) : (k, v) ∈ l := by
  induction l with
  | nil => simp [dlookup] at h
  | cons p rest ih =>
    by_cases hp : p.1 = k
    · simp only [dlookup, hp, if_pos, Option.some.injEq] at h
      have : p = (k, v) := by
        cases p
        simp_all
      rw [this]
      exact List.mem_cons_self _ _
    · simp only [dlookup, hp, if_neg, if_false] at h
      exact List.mem_cons_of_mem _ (ih h)

/-! ### Python / JSON values

Payload dictionaries handed to `encrypt_message` and reconstructed by
`json.loads` are modelled as a small Python-value type. -/

/-- A Python value as it can appear in a V2V message payload. -/
inductive PyVal : Type where
  | pnone : PyVal
  | pbool (b : Bool) : PyVal
  | pint (n : Int) : PyVal
  | pstr (s : String) : PyVal
  | plist (l : List PyVal) : PyVal
  | pdict (l : List (String × PyVal)) : PyVal

mutual

/-- Structural equality of Python values (Python `==` on JSON-like data). -/
def PyVal.beq : PyVal → PyVal → Bool
  | .pnone, .pnone => true
  | .pbool a, .pbool b => a == b
  | .pint a, .pint b => a == b
  | .pstr a, .pstr b => a == b
  | .plist a, .plist b => PyVal.beqList a b
  | .pdict a, .pdict b => PyVal.beqDict a b
  | _, _ => false

/-- Pointwise equality of Python lists. -/
def PyVal.beqList : List PyVal → List PyVal → Bool
  | [], [] => true
  | a :: as, b :: bs => PyVal.beq a b && PyVal.beqList as bs
  | _, _ => false

/-- Pointwise equality of Python dict entry lists. -/
def PyVal.beqDict : List (String × PyVal) → List (String × PyVal) → Bool
  | [], [] => true
  | (k, v) :: as, (k', v') :: bs => k == k' && PyVal.beq v v' && PyVal.beqDict as bs
  | _, _ => false

end

instance : BEq PyVal := ⟨PyVal.beq⟩

/-- Key lookup on a Python dict value (`data['k']` / `data.get('k')`). -/
def pyGet (v : PyVal) (k : String) : Option PyVal :=
  match v with
  | .pdict l => dlookup l k
  | _ => none

/-! ### Geometry (`src/core/spatial_data.py`)

Latitude/longitude/altitude floats are modelled over `ℝ`; the Haversine
computation is the exact real-number counterpart of the floating-point code. -/

/-- Degrees to radians (`math.radians`). -/
noncomputable def radians (x : ℝ) : ℝ := x * Real.pi / 180

/-- Two-argument arctangent (`math.atan2`), matching the C/Python branch
conventions; `atan2 0 0 = 0`. -/
noncomputable def atan2 (y x : ℝ) : ℝ :=
  if 0 < x then Real.arctan (y / x)
  else if x < 0 ∧ 0 ≤ y then Real.arctan (y / x) + Real.pi
  else if x < 0 ∧ y < 0 then Real.arctan (y / x) - Real.pi
  else if x = 0 ∧ 0 < y then Real.pi / 2
  else if x = 0 ∧ y < 0 then -(Real.pi / 2)
  else 0

/-- Source `Position` dataclass. -/
structure Position : Type where
  latitude : ℝ
  longitude : ℝ
  altitude : ℝ := 0
  accuracy : ℝ := 1
  timestamp : Int := 0

/-- Source `Position.distance_to`: great-circle distance by the Haversine formula,
Earth radius 6 371 000 m. -/
noncomputable def Position.distanceTo (p other : Position) : ℝ :=
  let R : ℝ := 6371000
  let lat1Rad := radians p.latitude
  let lat2Rad := radians other.latitude
  let deltaLat := radians (other.latitude - p.latitude)
  let deltaLon := radians (other.longitude - p.longitude)
  let a := Real.sin (deltaLat / 2) ^ 2 +
    Real.cos lat1Rad * Real.cos lat2Rad * Real.sin (deltaLon / 2) ^ 2
  let c := 2 * atan2 (Real.sqrt a) (Real.sqrt (1 - a))
  R * c

/-- Source `Velocity` dataclass. -/
structure Velocity : Type where
  speed : ℝ
  heading : ℝ
  vertical_speed : ℝ := 0
  accuracy : ℝ := 0.1
  timestamp : Int := 0

/-- Source `Acceleration` dataclass. -/
structure Acceleration : Type where
  linear_acceleration : ℝ
  angular_velocity : ℝ := 0
  lateral_acceleration : ℝ := 0
  accuracy : ℝ := 0.1
  timestamp : Int := 0

/-- Source `VehicleState` enum. -/
inductive VehicleState : Type where
  | stopped | moving | accelerating | decelerating
  | turningLeft | turningRight | reversing | emergency
deriving DecidableEq

/-- Source `SpatialData` dataclass (one spatial snapshot of one vehicle). -/
structure SpatialData : Type where
  vehicle_id : String
  position : Position
  velocity : Velocity
  acceleration : Acceleration
  state : VehicleState := .moving
  confidence : ℝ := 1
  timestamp : Int := 0

/-- Source `is_within_communication_range`: the range-membership test
`distance(a, b) ≤ max_range`. -/
def isWithinCommunicationRange (vehicle1 vehicle2 : SpatialData) (maxRange : ℝ) : Prop :=
  vehicle1.position.distanceTo vehicle2.position ≤ maxRange

/-! ### Proximity detection (`src/communication/proximity_detector.py`)

Events are returned as the list fanned out (in order) to the registered
listeners; listener bodies themselves are outside the model (a failing
listener is caught by `_notify_event` and does not influence the state). -/

open scoped Classical

/-- Metadata attached to a `ProximityEvent`. -/
inductive ProximityMeta : Type where
  | target (vehicle : String) : ProximityMeta
  | moved (previous current : Position) : ProximityMeta

/-- The vehicle named by a `target_vehicle` metadata entry, if any. -/
def ProximityMeta.targetVehicle : ProximityMeta → Option String
  | .target v => some v
  | .moved _ _ => none

/-- Source `ProximityEvent` dataclass. -/
structure ProximityEvent : Type where
  event_type : String
  vehicle_id : String
  distance : ℝ
  timestamp : Int
  metadata : ProximityMeta

/-- Source `CommunicationRange` dataclass. -/
structure CommunicationRange : Type where
  max_range : ℝ := 1000
  min_range : ℝ := 10
  signal_strength_threshold : ℝ := -80
  update_interval : ℝ := 0.1
  purge_delay : ℝ := 30

/-- Source `ProximityDetector` state. -/
structure ProximityDetector : Type where
  communication_range : CommunicationRange
  vehicle_positions : List (String × SpatialData) := []
  nearby_vehicles : List (String × List String) := []
  vehicle_last_seen : List (String × Int) := []

/-- The nearby set of a vehicle (`self.nearby_vehicles` is a `defaultdict(set)`:
a missing key reads as the empty set). -/
def nearbyGet (d : ProximityDetector) (v : String) : List String :=
  (dlookup d.nearby_vehicles v).getD []

/-- Add an element to a set modelled as a list (`set.add`). -/
def saddList (l : List String) (v : String) : List String :=
  if v ∈ l then l else l ++ [v]

/-- Source `_check_new_vehicle_proximity`: a vehicle with no prior snapshot is compared
against every tracked vehicle; each pair within range is added to each other's
nearby set and one `vehicle_entered` event (subject: the new vehicle, target:
the existing one) is emitted. -/
noncomputable def checkNewVehicleProximity (d : ProximityDetector) (now : Int)
    (vehicleId : String) (spatialData : SpatialData) :
    ProximityDetector × List ProximityEvent :=
  let step := fun (acc : List String × List (String × List String) × List ProximityEvent)
      (p : String × SpatialData) =>
    if p.1 = vehicleId then acc
    else if isWithinCommunicationRange spatialData p.2 d.communication_range.max_range then
      let ev : ProximityEvent :=
        { event_type := "vehicle_entered", vehicle_id := vehicleId,
          distance := spatialData.position.distanceTo p.2.position,
          timestamp := now, metadata := .target p.1 }
      let nbMap := match dlookup acc.2.1 p.1 with
        | some l => dinsert acc.2.1 p.1 (saddList l vehicleId)
        | none => dinsert acc.2.1 p.1 [vehicleId]
      (acc.1 ++ [p.1], nbMap, acc.2.2 ++ [ev])
    else acc
  let r := d.vehicle_positions.foldl step ([], d.nearby_vehicles, [])
  ({ d with nearby_vehicles := dinsert r.2.1 vehicleId r.1 }, r.2.2)

/-- Source `_detect_proximity_changes`: recompute the in-range set of a vehicle that
moved, emit `vehicle_entered` for newly in-range peers, `vehicle_exited` for
peers that dropped out, and `vehicle_moved` if it displaced more than 5 m. -/
noncomputable def detectProximityChanges (d : ProximityDetector) (now : Int)
    (vehicleId : String) (previousData currentData : SpatialData) :
    ProximityDetector × List ProximityEvent :=
  let previousNearby := nearbyGet d vehicleId
  let step := fun (acc : List String × List ProximityEvent) (p : String × SpatialData) =>
    if p.1 = vehicleId then acc
    else if isWithinCommunicationRange currentData p.2 d.communication_range.max_range then
      if p.1 ∈ previousNearby then (acc.1 ++ [p.1], acc.2)
      else
        (acc.1 ++ [p.1], acc.2 ++
          [{ event_type := "vehicle_entered", vehicle_id := p.1,
             distance := currentData.position.distanceTo p.2.position,
             timestamp := now, metadata := .target vehicleId }])
    else acc
  let r := d.vehicle_positions.foldl step ([], [])
  let exitEvents := (previousNearby.filter (fun o => o ∉ r.1)).map
    (fun o => ({ event_type := "vehicle_exited", vehicle_id := o,
                 distance := d.communication_range.max_range,
                 timestamp := now, metadata := .target vehicleId } : ProximityEvent))
  let distanceMoved := previousData.position.distanceTo currentData.position
  let movedEvents := if 5 < distanceMoved then
      [({ event_type := "vehicle_moved", vehicle_id := vehicleId,
          distance := distanceMoved, timestamp := now,
          metadata := .moved previousData.position currentData.position } : ProximityEvent)]
    else []
  ({ d with nearby_vehicles := dinsert d.nearby_vehicles vehicleId r.1 },
   r.2 ++ exitEvents ++ movedEvents)

/-- Source `update_vehicle_position`: upsert the snapshot and last-seen time, then
detect proximity changes (new-vehicle path when no prior snapshot existed). -/
noncomputable def updateVehiclePosition (d : ProximityDetector) (now : Int)
    (spatialData : SpatialData) : ProximityDetector × List ProximityEvent :=
  let vehicleId := spatialData.vehicle_id
  let previousPosition := dlookup d.vehicle_positions vehicleId
  let d1 := { d with
    vehicle_positions := dinsert d.vehicle_positions vehicleId spatialData,
    vehicle_last_seen := dinsert d.vehicle_last_seen vehicleId now }
  match previousPosition with
  | some prev => detectProximityChanges d1 now vehicleId prev spatialData
  | none => checkNewVehicleProximity d1 now vehicleId spatialData

/-- Source `get_nearby_vehicles`. -/
def getNearbyVehicles (d : ProximityDetector) (vehicleId : String) : List String :=
  nearbyGet d vehicleId

/-- Source `get_vehicle_distance`: `None` unless both vehicles are tracked. -/
noncomputable def getVehicleDistance (d : ProximityDetector) (vehicle1Id vehicle2Id : String) :
    Option ℝ :=
  match dlookup d.vehicle_positions vehicle1Id, dlookup d.vehicle_positions vehicle2Id with
  | some vehicle1, some vehicle2 => some (vehicle1.position.distanceTo vehicle2.position)
  | _, _ => none

/-- Source `is_vehicle_nearby`. -/
def isVehicleNearby (d : ProximityDetector) (vehicle1Id vehicle2Id : String) : Bool :=
  vehicle2Id ∈ nearbyGet d vehicle1Id

/-- Source `remove_vehicle`: emit `vehicle_exited` to every peer in the removed
vehicle's own nearby set, then delete its position, nearby set and last-seen
entries.  Other vehicles' state (including their nearby sets) is untouched. -/
def removeVehicle (d : ProximityDetector) (now : Int) (vehicleId : String) :
    ProximityDetector × List ProximityEvent :=
  if (dlookup d.vehicle_positions vehicleId).isSome then
    let events := (nearbyGet d vehicleId).map
      (fun otherId => ({ event_type := "vehicle_exited", vehicle_id := vehicleId,
                         distance := d.communication_range.max_range,
                         timestamp := now, metadata := .target otherId } : ProximityEvent))
    ({ d with
        vehicle_positions := derase d.vehicle_positions vehicleId,
        nearby_vehicles := derase d.nearby_vehicles vehicleId,
        vehicle_last_seen := derase d.vehicle_last_seen vehicleId }, events)
  else (d, [])

/-! ### Vehicle identity (`src/core/vehicle_identity.py`) -/

/-- Deterministic abstract stand-in for byte strings derived from text (key
material, PEM blobs); injective enough for the properties proved here. -/
def strCode (s : String) : Nat :=
  s.toList.foldl (fun a c => a * 1114112 + c.toNat + 1) 7

/-- Source `VehicleIdentity` dataclass.  `certificate`, `private_key` and `public_key`
are PEM byte strings modelled as abstract numbers; an RSA key pair is one
number shared by both halves. -/
structure VehicleIdentity : Type where
  vehicle_id : String
  manufacturer : String := ""
  model : String := ""
  year : Int := 0
  vin : String := ""
  capabilities : List (String × Bool) := []
  certificate : Option Nat := none
  private_key : Option Nat := none
  public_key : Option Nat := none
  created_at : Int := 0
  expires_at : Option Int := none
deriving DecidableEq

/-- Source `generate_key_pair`: install a fresh RSA key pair.  The library's random
generation is modelled by a deterministic abstract function of the vehicle id;
no proved property depends on the key value. -/
def generateKeyPair (v : VehicleIdentity) : VehicleIdentity :=
  { v with private_key := some (strCode v.vehicle_id),
           public_key := some (strCode v.vehicle_id) }

/-- Source `create_self_signed_certificate`: generate a key pair if absent, then
install a certificate binding the public key (abstract PEM bytes). -/
def createSelfSignedCertificate (v : VehicleIdentity) : VehicleIdentity :=
  let v1 := if v.private_key.isNone then generateKeyPair v else v
  { v1 with certificate := some (strCode v1.vehicle_id + 1) }

/-- Source `is_certificate_valid`: a certificate exists, an expiry exists, and
`now < expires_at`. -/
def isCertificateValid (v : VehicleIdentity) (now : Int) : Bool :=
  match v.certificate, v.expires_at with
  | some _, some e => decide (now < e)
  | _, _ => false

/-! ### Security manager (`src/communication/security_manager.py`) -/

/-- Source `SecurityConfig` dataclass (defaults as in the source). -/
structure SecurityConfig : Type where
  key_size : Nat := 256
  iv_size : Nat := 12
  key_rotation_interval : Int := 3600
  max_key_age : Int := 86400
  max_message_age : Int := 300
  require_timestamp : Bool := true
  require_signature : Bool := true
deriving DecidableEq

/-- An AES-GCM ciphertext, symbolically: the AES-CTR encryption of the
serialized plaintext under `key` and `iv`.  The authentication tag computed by
the encryptor is *not* part of this value because `encrypt_message` discards it
(the `EncryptedMessage` dataclass has no tag field). -/
structure SymCiphertext : Type where
  key : Nat
  iv : Nat
  plaintext : PyVal

/-- Equality of ciphertext byte strings. -/
def SymCiphertext.beq (a b : SymCiphertext) : Bool :=
  a.key == b.key && a.iv == b.iv && PyVal.beq a.plaintext b.plaintext

/-- The fields serialized and hashed for signing (`message_to_sign` /
`message_to_verify`): ciphertext hex, IV hex, sender, timestamp ISO string,
message type, priority.  The SHA-256 of the canonical serialization is
modelled as the record itself. -/
structure SignedFields : Type where
  encrypted_data : SymCiphertext
  iv : Nat
  sender_id : String
  timestamp : Int
  message_type : String
  priority : Int

/-- Equality of signed-field hashes. -/
def SignedFields.beq (a b : SignedFields) : Bool :=
  SymCiphertext.beq a.encrypted_data b.encrypted_data && a.iv == b.iv &&
    a.sender_id == b.sender_id && a.timestamp == b.timestamp &&
    a.message_type == b.message_type && a.priority == b.priority

/-- An RSA-PSS signature: the signing key together with the signed hash.
PSS salt randomness is abstracted away; verification succeeds exactly when the
verifying public key matches the signing private key and the hashes agree. -/
structure Sig : Type where
  key : Nat
  fields : SignedFields

/-- Source `EncryptedMessage` dataclass (the wire envelope).  Note: no tag field. -/
structure EncryptedMessage : Type where
  encrypted_data : SymCiphertext
  iv : Nat
  signature : Sig
  sender_id : String
  timestamp : Int
  message_type : String
  priority : Int

/-- A `cryptography` AES-GCM decryption context: `Cipher(AES(key), GCM(iv))`
carries no tag; `finalize()` then refuses to complete. -/
structure GCMDecryptor : Type where
  key : Nat
  iv : Nat
  tag : Option Nat

/-- Source `decryptor.update(ct)`: the CTR layer inverts the encryption when key and
IV match and yields garbage bytes (no JSON-parseable plaintext) otherwise. -/
def GCMDecryptor.update (d : GCMDecryptor) (ct : SymCiphertext) : Option PyVal :=
  if ct.key == d.key && ct.iv == d.iv then some ct.plaintext else none

/-- Source `decryptor.finalize()`: the library raises
`ValueError("Authentication tag must be provided when decrypting.")` when the
GCM mode object was constructed without a tag. -/
def GCMDecryptor.finalize (d : GCMDecryptor) : Except String Unit :=
  match d.tag with
  | none => .error "Authentication tag must be provided when decrypting."
  | some _ => .ok ()

/-- Source `SecurityManager` state. -/
structure SMState : Type where
  config : SecurityConfig := {}
  vehicle_identities : List (String × VehicleIdentity) := []
  session_keys : List (String × List (String × Nat)) := []
  key_timestamps : List (String × List (String × Int)) := []
  revoked_vehicles : List String := []

/-- Source `register_vehicle`: complete the identity (creating a certificate, and if
needed a key pair, when either is absent), store it, and initialize empty
session-key and timestamp tables for it.  Returns the stored identity as well,
because the Python method mutates the caller's object in place. -/
def registerVehicle (s : SMState) (vehicle : VehicleIdentity) :
    (SMState × VehicleIdentity) × Bool :=
  let v := if vehicle.certificate.isNone || vehicle.private_key.isNone then
      createSelfSignedCertificate vehicle
    else vehicle
  (({ s with
      vehicle_identities := dinsert s.vehicle_identities v.vehicle_id v,
      session_keys := dinsert s.session_keys v.vehicle_id [],
      key_timestamps := dinsert s.key_timestamps v.vehicle_id [] }, v), true)

/-- Source `revoke_vehicle`: for a registered vehicle, add it to the revocation set,
delete its own session-key and timestamp tables, and delete it from every other
vehicle's tables.  (The loop over the other timestamp tables indexes
`key_timestamps[other]` for each key `other` of `session_keys`; in every
reachable state the two tables have the same outer keys.) -/
def revokeVehicle (s : SMState) (vehicleId : String) : SMState × Bool :=
  if (dlookup s.vehicle_identities vehicleId).isSome then
    let sk1 := derase s.session_keys vehicleId
    let kt1 := derase s.key_timestamps vehicleId
    let sk2 := mapVals sk1 (fun _ m => derase m vehicleId)
    let kt2 := mapVals kt1 (fun other m =>
      if (dlookup sk1 other).isSome then derase m vehicleId else m)
    ({ s with
        revoked_vehicles := vehicleId :: s.revoked_vehicles,
        session_keys := sk2,
        key_timestamps := kt2 }, true)
  else (s, false)

/-- Source `is_vehicle_authorized`: registered, not revoked, certificate valid. -/
def isVehicleAuthorized (s : SMState) (now : Int) (vehicleId : String) : Bool :=
  match dlookup s.vehicle_identities vehicleId with
  | none => false
  | some v => !(s.revoked_vehicles.contains vehicleId) && isCertificateValid v now

/-- Source `_generate_session_key`: PBKDF2-HMAC over `"v1:v2:int(time)"` with a fixed
salt, modelled as an abstract deterministic derivation from that material. -/
def generateSessionKey (vehicle1Id vehicle2Id : String) (now : Int) : Nat :=
  strCode (vehicle1Id ++ ":" ++ vehicle2Id ++ ":" ++ toString now)

/-- Store `outer[k1][k2] = v`, creating the inner table if missing. -/
def dinsert2 {α : Type} (outer : List (String × List (String × α)))
    (k1 k2 : String) (v : α) : List (String × List (String × α)) :=
  dinsert outer k1 (dinsert ((dlookup outer k1).getD []) k2 v)

/-- Source `_get_or_create_session_key`: authorization check, reuse of a stored
fresh-enough key, otherwise derivation and symmetric storage in both
directions. -/
def getOrCreateSessionKey (s : SMState) (now : Int) (senderId receiverId : String) :
    Except String (Nat × SMState) :=
  if !(isVehicleAuthorized s now senderId) || !(isVehicleAuthorized s now receiverId) then
    .error "Unauthorized vehicle"
  else
    let existing : Option Nat :=
      match dlookup s.session_keys senderId, dlookup s.key_timestamps senderId with
      | some skm, some ktm =>
        match dlookup skm receiverId, dlookup ktm receiverId with
        | some key, some ts =>
          if now - ts < s.config.max_key_age then some key else none
        | _, _ => none
      | _, _ => none
    match existing with
    | some key => .ok (key, s)
    | none =>
      let sessionKey := generateSessionKey senderId receiverId now
      let sk1 := dinsert2 s.session_keys senderId receiverId sessionKey
      let kt1 := dinsert2 s.key_timestamps senderId receiverId now
      let sk2 := dinsert2 sk1 receiverId senderId sessionKey
      let kt2 := dinsert2 kt1 receiverId senderId now
      .ok (sessionKey, { s with session_keys := sk2, key_timestamps := kt2 })

/-- Source `_sign_message`: look up the sender, require a private key, sign the hash
of the serialized fields. -/
def signMessage (s : SMState) (fields : SignedFields) (senderId : String) :
    Except String Sig :=
  match dlookup s.vehicle_identities senderId with
  | none => .error ("Unknown sender: " ++ senderId)
  | some v =>
    match v.private_key with
    | none => .error "No private key available"
    | some k => .ok ⟨k, fields⟩

/-- Source `_verify_signature`: false for an unknown sender or a missing public key;
otherwise RSA-PSS verification of the fields hash. -/
def verifySignature (s : SMState) (fields : SignedFields) (signature : Sig)
    (senderId : String) : Bool :=
  match dlookup s.vehicle_identities senderId with
  | none => false
  | some v =>
    match v.public_key with
    | none => false
    | some pk => signature.key == pk && SignedFields.beq signature.fields fields

/-- Source `encrypt_message`: authorization check, session key, AES-GCM encryption of
the serialized payload under a fresh random IV (the IV is the explicit `iv`
argument), signing of the envelope fields.  The GCM tag is discarded.  Returns
the envelope together with the (possibly updated) manager state. -/
def encryptMessage (s : SMState) (now : Int) (messageData : PyVal)
    (senderId receiverId : String) (messageType : String) (priority : Int)
    (iv : Nat) : Except String EncryptedMessage × SMState :=
  if !(isVehicleAuthorized s now senderId) then
    (.error ("Unauthorized sender: " ++ senderId), s)
  else
    match getOrCreateSessionKey s now senderId receiverId with
    | .error e => (.error e, s)
    | .ok (sessionKey, s1) =>
      let encryptedData : SymCiphertext := ⟨sessionKey, iv, messageData⟩
      let fields : SignedFields := ⟨encryptedData, iv, senderId, now, messageType, priority⟩
      match signMessage s1 fields senderId with
      | .error e => (.error e, s1)
      | .ok signature =>
        (.ok ⟨encryptedData, iv, signature, senderId, now, messageType, priority⟩, s1)

/-- Source `decrypt_message`: authorization, message-age and signature checks, session
key, then AES-GCM decryption.  The decryption context is constructed without a
tag (`modes.GCM(encrypted_message.iv)`), so `finalize()` always raises and the
raised error is re-wrapped as `"Decryption failed: ..."`. -/
def decryptMessage (s : SMState) (now : Int) (encryptedMessage : EncryptedMessage)
    (receiverId : String) : Except String PyVal × SMState :=
  if !(isVehicleAuthorized s now receiverId) then
    (.error ("Unauthorized receiver: " ++ receiverId), s)
  else if s.config.require_timestamp &&
      decide (now - encryptedMessage.timestamp > s.config.max_message_age) then
    (.error "Message too old", s)
  else if s.config.require_signature &&
      !(verifySignature s
          ⟨encryptedMessage.encrypted_data, encryptedMessage.iv,
           encryptedMessage.sender_id, encryptedMessage.timestamp,
           encryptedMessage.message_type, encryptedMessage.priority⟩
          encryptedMessage.signature encryptedMessage.sender_id) then
    (.error "Invalid signature", s)
  else
    match getOrCreateSessionKey s now encryptedMessage.sender_id receiverId with
    | .error e => (.error e, s)
    | .ok (sessionKey, s1) =>
      let decryptor : GCMDecryptor := ⟨sessionKey, encryptedMessage.iv, none⟩
      let decryptedData := decryptor.update encryptedMessage.encrypted_data
      match decryptor.finalize with
      | .error e => (.error ("Decryption failed: " ++ e), s1)
      | .ok _ =>
        match decryptedData with
        | some payload => (.ok payload, s1)
        | none => (.error "Decryption failed: invalid payload", s1)

/-! ### Protocol engine (`src/communication/v2v_protocol.py`)

The transport (`_simulate_network_send`) is modelled as the list of
transmissions produced by an operation; handlers are opaque identifiers
(their bodies are caught-and-logged and cannot influence engine state). -/

/-- Source `MessageType` enum. -/
inductive MessageType : Type where
  | spatialData | emergencyBroadcast | trajectoryPrediction | collisionWarning
  | laneChangeRequest | intersectionCoordination | heartbeat | acknowledgment
deriving DecidableEq

/-- The wire value of a `MessageType`. -/
def MessageType.value : MessageType → String
  | .spatialData => "spatial_data"
  | .emergencyBroadcast => "emergency_broadcast"
  | .trajectoryPrediction => "trajectory_prediction"
  | .collisionWarning => "collision_warning"
  | .laneChangeRequest => "lane_change_request"
  | .intersectionCoordination => "intersection_coordination"
  | .heartbeat => "heartbeat"
  | .acknowledgment => "acknowledgment"

/-- Source `MessageType(value)`: inverse of `MessageType.value`, raising on an
unknown value. -/
def MessageType.fromValue (s : String) : Option MessageType :=
  if s = "spatial_data" then some .spatialData
  else if s = "emergency_broadcast" then some .emergencyBroadcast
  else if s = "trajectory_prediction" then some .trajectoryPrediction
  else if s = "collision_warning" then some .collisionWarning
  else if s = "lane_change_request" then some .laneChangeRequest
  else if s = "intersection_coordination" then some .intersectionCoordination
  else if s = "heartbeat" then some .heartbeat
  else if s = "acknowledgment" then some .acknowledgment
  else none

/-- Source `MessagePriority` enum. -/
inductive MessagePriority : Type where
  | emergency | high | normal | low
deriving DecidableEq

/-- The numeric value of a `MessagePriority`. -/
def MessagePriority.value : MessagePriority → Int
  | .emergency => 1
  | .high => 2
  | .normal => 3
  | .low => 4

/-- Source `MessagePriority(value)`. -/
def MessagePriority.fromValue (n : Int) : Option MessagePriority :=
  if n = 1 then some .emergency
  else if n = 2 then some .high
  else if n = 3 then some .normal
  else if n = 4 then some .low
  else none

/-- Source `V2VMessage` dataclass. -/
structure V2VMessage : Type where
  message_id : String
  message_type : MessageType
  sender_id : String
  receiver_id : Option String := none
  priority : MessagePriority := .normal
  timestamp : Int
  ttl : Int := 5
  data : PyVal := .pdict []
  encrypted : Bool := true

/-- Source `V2VMessage.to_dict` (timestamps serialize to their ISO string, modelled
as the decimal string of the integer instant). -/
def V2VMessage.toDict (m : V2VMessage) : PyVal :=
  .pdict [("message_id", .pstr m.message_id),
          ("message_type", .pstr m.message_type.value),
          ("sender_id", .pstr m.sender_id),
          ("receiver_id", match m.receiver_id with
            | some r => .pstr r
            | none => .pnone),
          ("priority", .pint m.priority.value),
          ("timestamp", .pstr (toString m.timestamp)),
          ("ttl", .pint m.ttl),
          ("data", m.data),
          ("encrypted", .pbool m.encrypted)]

/-- Source `V2VMessage.from_dict`: reconstruct a message from decrypted payload data;
any missing required key or invalid enum value raises (modelled as `.error`). -/
def V2VMessage.fromDict (v : PyVal) : Except String V2VMessage :=
  match pyGet v "message_id" with
  | some (.pstr messageId) =>
    (match pyGet v "message_type" with
     | some (.pstr typeStr) =>
       (match MessageType.fromValue typeStr with
        | some messageType =>
          (match pyGet v "sender_id" with
           | some (.pstr senderId) =>
             (match (match pyGet v "receiver_id" with
                     | some (.pstr r) => Except.ok (some r)
                     | some .pnone => Except.ok none
                     | none => Except.ok none
                     | some _ => Except.error "bad receiver_id") with
              | .error e => .error e
              | .ok receiverId =>
                (match pyGet v "priority" with
                 | some (.pint p) =>
                   (match MessagePriority.fromValue p with
                    | some priority =>
                      (match pyGet v "timestamp" with
                       | some (.pstr ts) =>
                         (match ts.toInt? with
                          | some timestamp =>
                            let ttl := match pyGet v "ttl" with
                              | some (.pint t) => t
                              | _ => 5
                            let encrypted := match pyGet v "encrypted" with
                              | some (.pbool b) => b
                              | _ => true
                            (match pyGet v "data" with
                             | some d =>
                               .ok { message_id := messageId, message_type := messageType,
                                     sender_id := senderId, receiver_id := receiverId,
                                     priority := priority, timestamp := timestamp,
                                     ttl := ttl, data := d, encrypted := encrypted }
                             | none => .error "KeyError: data")
                          | none => .error "invalid timestamp")
                       | _ => .error "KeyError: timestamp")
                    | none => .error "invalid priority")
                 | _ => .error "KeyError: priority"))
           | _ => .error "KeyError: sender_id")
        | none => .error "invalid message_type")
     | _ => .error "KeyError: message_type")
  | _ => .error "KeyError: message_id"

/-- Source `MessageStats` dataclass. -/
structure MessageStats : Type where
  messages_sent : Nat := 0
  messages_received : Nat := 0
  messages_dropped : Nat := 0
  encryption_errors : Nat := 0
  decryption_errors : Nat := 0
  authentication_failures : Nat := 0
  last_activity : Option Int := none
deriving DecidableEq

/-- One simulated network transmission (`_simulate_network_send`). -/
inductive Wire : Type where
  | enc (envelope : EncryptedMessage) (target : String)
  | plain (message : V2VMessage) (target : String)

/-- Source `V2VProtocol` engine state (one instance per vehicle). -/
structure EngineState : Type where
  vehicle_id : String
  security : SMState
  proximity : ProximityDetector
  message_handlers : List (MessageType × List Nat) := []
  message_queue : List V2VMessage := []
  message_stats : MessageStats := {}
  message_cache : List (String × Int) := []
  routing_table : List (String × String) := []

/-- Source `V2VProtocol.__init__`. -/
def initEngine (vehicleId : String) (security : SMState) (proximity : ProximityDetector) :
    EngineState :=
  { vehicle_id := vehicleId, security := security, proximity := proximity }

/-- Source `_is_message_expired`: `now - timestamp > ttl`. -/
def isMessageExpired (now : Int) (m : V2VMessage) : Bool :=
  decide (now - m.timestamp > m.ttl)

/-- Source `_send_to_vehicle`: range check, then encryption and transmission; an
encryption failure is caught and yields `false` (no statistics change). -/
def sendToVehicle (s : EngineState) (now : Int) (message : V2VMessage)
    (targetVehicle : String) (iv : Nat) : Bool × EngineState × List Wire :=
  if !(isVehicleNearby s.proximity s.vehicle_id targetVehicle) then (false, s, [])
  else if message.encrypted then
    match encryptMessage s.security now message.toDict s.vehicle_id targetVehicle
        message.message_type.value message.priority.value iv with
    | (.ok envelope, sec1) => (true, { s with security := sec1 }, [.enc envelope targetVehicle])
    | (.error _, sec1) => (false, { s with security := sec1 }, [])
  else (true, s, [.plain message targetVehicle])

/-- The per-target body of `send_message`'s loop: skip self, otherwise
`_send_to_vehicle` and count the success. -/
def sendLoop (now : Int) (message : V2VMessage) (iv : Nat) (selfId : String)
    (acc : Nat × EngineState × List Wire) (target : String) : Nat × EngineState × List Wire :=
  if target = selfId then acc
  else
    let r1 := sendToVehicle acc.2.1 now message target iv
    (if r1.1 then acc.1 + 1 else acc.1, r1.2.1, acc.2.2 ++ r1.2.2)

/-- Source `send_message`: drop expired messages, record the id in the dedup cache,
resolve targets (explicit target, else `receiver_id`, else all nearby), send to
each target other than self, and count one send on any success, else one drop. -/
def sendMessage (s : EngineState) (now : Int) (message : V2VMessage)
    (targetVehicle : Option String) (iv : Nat) : Bool × EngineState × List Wire :=
  if isMessageExpired now message then
    (false, { s with message_stats :=
      { s.message_stats with messages_dropped := s.message_stats.messages_dropped + 1 } }, [])
  else
    let s1 := { s with message_cache := dinsert s.message_cache message.message_id now }
    let targetVehicles : List String :=
      match targetVehicle with
      | some t => [t]
      | none =>
        match message.receiver_id with
        | some r => [r]
        | none => getNearbyVehicles s1.proximity s1.vehicle_id
    let r := targetVehicles.foldl (sendLoop now message iv s1.vehicle_id) (0, s1, [])
    if r.1 > 0 then
      (true, { r.2.1 with message_stats :=
        { r.2.1.message_stats with
            messages_sent := r.2.1.message_stats.messages_sent + r.1,
            last_activity := some now } }, r.2.2)
    else
      (false, { r.2.1 with message_stats :=
        { r.2.1.message_stats with
            messages_dropped := r.2.1.message_stats.messages_dropped + 1 } }, r.2.2)

/-- Source `receive_message`: decrypt (any failure — authorization, age, signature,
AEAD — is caught and counted as a decryption error), reconstruct, silently
drop duplicates, otherwise record, enqueue and count. -/
def receiveMessage (s : EngineState) (now : Int) (encryptedMessage : EncryptedMessage) :
    Bool × EngineState :=
  match decryptMessage s.security now encryptedMessage s.vehicle_id with
  | (.error _, sec1) =>
    (false, { s with security := sec1, message_stats :=
      { s.message_stats with decryption_errors := s.message_stats.decryption_errors + 1 } })
  | (.ok messageData, sec1) =>
    let s1 := { s with security := sec1 }
    match V2VMessage.fromDict messageData with
    | .error _ =>
      (false, { s1 with message_stats :=
        { s1.message_stats with
            decryption_errors := s1.message_stats.decryption_errors + 1 } })
    | .ok message =>
      if (dlookup s1.message_cache message.message_id).isSome then (false, s1)
      else
        (true, { s1 with
          message_cache := dinsert s1.message_cache message.message_id now,
          message_queue := s1.message_queue ++ [message],
          message_stats :=
            { s1.message_stats with
                messages_received := s1.message_stats.messages_received + 1,
                last_activity := some now } })

/-- The acknowledgment built by `_send_acknowledgment`. -/
def ackMessage (s : EngineState) (now : Int) (originalMessage : V2VMessage) : V2VMessage :=
  { message_id := "ack_" ++ originalMessage.message_id,
    message_type := .acknowledgment,
    sender_id := s.vehicle_id,
    receiver_id := some originalMessage.sender_id,
    priority := .low,
    timestamp := now,
    data := .pdict [("original_message_id", .pstr originalMessage.message_id)],
    encrypted := true }

/-- Source `_process_message` (the dispatch path): drop expired messages, invoke every
handler registered for the type, then send an acknowledgment unless the
message is itself an acknowledgment.  Returns the engine state, the handlers
invoked, and the transmissions caused by the acknowledgment. -/
def processMessage (s : EngineState) (now : Int) (message : V2VMessage) (iv : Nat) :
    EngineState × List Nat × List Wire :=
  if isMessageExpired now message then (s, [], [])
  else
    let invoked := (dlookup s.message_handlers message.message_type).getD []
    if message.message_type = MessageType.acknowledgment then (s, invoked, [])
    else
      let r := sendMessage s now (ackMessage s now message)
        (some message.sender_id) iv
      (r.2.1, invoked, r.2.2)

/-- One externally triggered engine operation. -/
inductive EngineOp : Type where
  | send (now : Int) (message : V2VMessage) (target : Option String) (iv : Nat)
  | recv (now : Int) (envelope : EncryptedMessage)
  | process (now : Int) (message : V2VMessage) (iv : Nat)

/-- Apply one engine operation to the state. -/
def engineStep (s : EngineState) : EngineOp → EngineState
  | .send now message target iv => (sendMessage s now message target iv).2.1
  | .recv now envelope => (receiveMessage s now envelope).2
  | .process now message iv => (processMessage s now message iv).1

/-- Apply a sequence of engine operations. -/
def runOps (s : EngineState) (ops : List EngineOp) : EngineState :=
  ops.foldl engineStep s

/-! ### Helper lemmas -/

theorem createSelfSigned_cert_isSome (v : VehicleIdentity) :
    (createSelfSignedCertificate v).certificate.isNone = false := by
  unfold createSelfSignedCertificate
  cases h : v.private_key <;> simp [generateKeyPair, h]

theorem createSelfSigned_key_isSome (v : VehicleIdentity) :
    (createSelfSignedCertificate v).private_key.isNone = false := by
  unfold createSelfSignedCertificate
  cases h : v.private_key <;> simp [generateKeyPair, h]

theorem isVehicleAuthorized_of_revoked (t : SMState) (now : Int) (a : String)
    (h : a ∈ t.revoked_vehicles) : isVehicleAuthorized t now a = false := by
  unfold isVehicleAuthorized
  cases hl : dlookup t.vehicle_identities a with
  | none => rfl
  | some v =>
    have hc : t.revoked_vehicles.contains a = true := by simpa using h
    rw [hc]
    rfl

theorem encryptMessage_revoked_error (t : SMState) (now : Int) (payload : PyVal)
    (a receiver mtype : String) (priority : Int) (iv : Nat)
    (h : a ∈ t.revoked_vehicles) :
    encryptMessage t now payload a receiver mtype priority iv =
      (.error ("Unauthorized sender: " ++ a), t) := by
  unfold encryptMessage
  rw [isVehicleAuthorized_of_revoked t now a h]
  simp

/-- Central lemma behind the round-trip claims: `decrypt_message` constructs
its GCM context without a tag, so every call raises — no input whatsoever
decrypts successfully. -/
theorem decryptMessage_not_ok (s : SMState) (now : Int) (em : EncryptedMessage)
    (receiverId : String) : ∃ e, (decryptMessage s now em receiverId).1 = .error e := by
  unfold decryptMessage
  split
  · exact ⟨_, rfl⟩
  · split
    · exact ⟨_, rfl⟩
    · split
      · exact ⟨_, rfl⟩
      · split
        · exact ⟨_, rfl⟩
        · exact ⟨_, rfl⟩

/-! ### Claim theorems -/

/-- Claim C6: `register_vehicle` is idempotent per vehicle id — registering the
same (possibly in-place-completed) identity a second time reproduces exactly
the state and identity produced by the first call. -/
theorem register_vehicle_idempotent (s : SMState) (v : VehicleIdentity) :
    registerVehicle (registerVehicle s v).1.1 (registerVehicle s v).1.2 =
      registerVehicle s v := by
  unfold registerVehicle
  set v1 := if v.certificate.isNone || v.private_key.isNone then
      createSelfSignedCertificate v else v with hv1
  have hc : v1.certificate.isNone = false := by
    rw [hv1]
    split
    · exact createSelfSigned_cert_isSome v
    · rename_i hg
      rw [Bool.or_eq_true, not_or] at hg
      rw [← Bool.not_eq_true]
      exact hg.1
  have hk : v1.private_key.isNone = false := by
    rw [hv1]
    split
    · exact createSelfSigned_key_isSome v
    · rename_i hg
      rw [Bool.or_eq_true, not_or] at hg
      rw [← Bool.not_eq_true]
      exact hg.2
  simp only [hc, hk, Bool.or_self, Bool.false_eq_true, if_false]
  simp only [Prod.mk.injEq, and_true, true_and, SMState.mk.injEq]
  exact ⟨dinsert_dinsert_same _ _ _, dinsert_dinsert_same _ _ _, dinsert_dinsert_same _ _ _⟩

/-- Claim C8: `get_vehicle_distance` is total — it returns `None` exactly when
either vehicle is untracked and the Haversine distance of the two stored
positions otherwise. -/
theorem get_vehicle_distance_total (d : ProximityDetector) (a b : String) :
    (getVehicleDistance d a b = none ↔
      dlookup d.vehicle_positions a = none ∨ dlookup d.vehicle_positions b = none) ∧
    (∀ p q, dlookup d.vehicle_positions a = some p →
      dlookup d.vehicle_positions b = some q →
      getVehicleDistance d a b = some (p.position.distanceTo q.position)) := by
  constructor
  · cases ha : dlookup d.vehicle_positions a with
    | none => simp [getVehicleDistance, ha]
    | some p =>
      cases hb : dlookup d.vehicle_positions b with
      | none => simp [getVehicleDistance, ha, hb]
      | some q => simp [getVehicleDistance, ha, hb]
  · intro p q hp hq
    simp [getVehicleDistance, hp, hq]

/-- Claim C9: `remove_vehicle(v)` deletes only `v`'s own tracked state; any
other vehicle keeps its position, last-seen time and nearby set — in
particular `v` itself stays in the other vehicle's nearby set. -/
theorem remove_vehicle_frame (d : ProximityDetector) (now : Int) (v b : String)
    (hne : b ≠ v) :
    dlookup (removeVehicle d now v).1.vehicle_positions b = dlookup d.vehicle_positions b ∧
    dlookup (removeVehicle d now v).1.vehicle_last_seen b = dlookup d.vehicle_last_seen b ∧
    nearbyGet (removeVehicle d now v).1 b = nearbyGet d b ∧
    (v ∈ nearbyGet d b → isVehicleNearby (removeVehicle d now v).1 b v = true) := by
  unfold removeVehicle
  split
  · refine ⟨dlookup_derase_ne _ _ _ hne, dlookup_derase_ne _ _ _ hne, ?_, ?_⟩
    · unfold nearbyGet
      rw [dlookup_derase_ne _ _ _ hne]
    · intro hmem
      unfold isVehicleNearby nearbyGet
      rw [dlookup_derase_ne _ _ _ hne]
      exact decide_eq_true hmem
  · refine ⟨rfl, rfl, rfl, ?_⟩
    intro hmem
    unfold isVehicleNearby
    exact decide_eq_true hmem

theorem sendToVehicle_stats (s : EngineState) (now : Int) (m : V2VMessage)
    (t : String) (iv : Nat) :
    ((sendToVehicle s now m t iv).2.1).message_stats = s.message_stats := by
  unfold sendToVehicle
  split
  · rfl
  · split
    · split
      · rfl
      · rfl
    · rfl

theorem sendLoop_stats (now : Int) (m : V2VMessage) (iv : Nat) (selfId : String)
    (acc : Nat × EngineState × List Wire) (t : String) :
    ((sendLoop now m iv selfId acc t).2.1).message_stats = acc.2.1.message_stats := by
  unfold sendLoop
  split
  · rfl
  · exact sendToVehicle_stats _ _ _ _ _

theorem foldl_sendLoop_stats (now : Int) (m : V2VMessage) (iv : Nat) (selfId : String) :
    ∀ (l : List String) (acc : Nat × EngineState × List Wire),
      ((l.foldl (sendLoop now m iv selfId) acc).2.1).message_stats = acc.2.1.message_stats := by
  intro l
  induction l with
  | nil => intro acc; rfl
  | cons t rest ih =>
    intro acc
    rw [List.foldl_cons, ih, sendLoop_stats]

theorem sendMessage_stats_auth (s : EngineState) (now : Int) (m : V2VMessage)
    (target : Option String) (iv : Nat) :
    ((sendMessage s now m target iv).2.1).message_stats.authentication_failures =
      s.message_stats.authentication_failures := by
  unfold sendMessage
  split
  · rfl
  · dsimp only
    split
    · dsimp only
      rw [foldl_sendLoop_stats]
    · dsimp only
      rw [foldl_sendLoop_stats]

theorem receiveMessage_stats_auth (s : EngineState) (now : Int) (env : EncryptedMessage) :
    ((receiveMessage s now env).2).message_stats.authentication_failures =
      s.message_stats.authentication_failures := by
  unfold receiveMessage
  split
  · rfl
  · split
    · rfl
    · dsimp only
      split
      · rfl
      · rfl

theorem processMessage_stats_auth (s : EngineState) (now : Int) (m : V2VMessage) (iv : Nat) :
    ((processMessage s now m iv).1).message_stats.authentication_failures =
      s.message_stats.authentication_failures := by
  unfold processMessage
  split
  · rfl
  · split
    · rfl
    · exact sendMessage_stats_auth _ _ _ _ _

theorem engineStep_auth (s : EngineState) (op : EngineOp) :
    (engineStep s op).message_stats.authentication_failures =
      s.message_stats.authentication_failures := by
  cases op with
  | send now m target iv => exact sendMessage_stats_auth s now m target iv
  | recv now env => exact receiveMessage_stats_auth s now env
  | process now m iv => exact processMessage_stats_auth s now m iv

/-- Claim C2: revoking a registered vehicle makes it unauthorized, makes every
subsequent `encrypt_message` with it as sender fail with the authorization
error, and purges every session-key and key-timestamp entry involving it in
both directions.  (The hypothesis that each key-timestamp outer key is also a
session-key outer key is an invariant of every reachable manager state; the
Python loop would raise a `KeyError` otherwise.) -/
theorem revoke_vehicle_purges (s : SMState) (a : String) (now : Int)
    (hreg : (dlookup s.vehicle_identities a).isSome = true)
    (hdom : s.key_timestamps.all (fun p => (dlookup s.session_keys p.1).isSome) = true) :
    isVehicleAuthorized (revokeVehicle s a).1 now a = false ∧
    (∀ (t : SMState) (now2 : Int) (payload : PyVal) (receiver mtype : String)
        (priority : Int) (iv : Nat), a ∈ t.revoked_vehicles →
      encryptMessage t now2 payload a receiver mtype priority iv =
        (.error ("Unauthorized sender: " ++ a), t)) ∧
    a ∈ (revokeVehicle s a).1.revoked_vehicles ∧
    dlookup (revokeVehicle s a).1.session_keys a = none ∧
    dlookup (revokeVehicle s a).1.key_timestamps a = none ∧
    (∀ b m, dlookup (revokeVehicle s a).1.session_keys b = some m → dlookup m a = none) ∧
    (∀ b m, dlookup (revokeVehicle s a).1.key_timestamps b = some m → dlookup m a = none) := by
  have hrev : (revokeVehicle s a).1 =
      { s with
        revoked_vehicles := a :: s.revoked_vehicles,
        session_keys := mapVals (derase s.session_keys a) (fun _ m => derase m a),
        key_timestamps := mapVals (derase s.key_timestamps a) (fun other m =>
          if (dlookup (derase s.session_keys a) other).isSome then derase m a else m) } := by
    unfold revokeVehicle
    rw [if_pos hreg]
  have hmem : a ∈ (revokeVehicle s a).1.revoked_vehicles := by
    rw [hrev]
    exact List.mem_cons_self _ _
  refine ⟨isVehicleAuthorized_of_revoked _ now a hmem,
    fun t now2 payload receiver mtype priority iv h =>
      encryptMessage_revoked_error t now2 payload a receiver mtype priority iv h,
    hmem, ?_, ?_, ?_, ?_⟩
  · rw [hrev]
    dsimp only
    rw [dlookup_mapVals, dlookup_derase_self]
    rfl
  · rw [hrev]
    dsimp only
    rw [dlookup_mapVals, dlookup_derase_self, dlookup_derase_self]
    rfl
  · intro b m hm
    rw [hrev] at hm
    dsimp only at hm
    rw [dlookup_mapVals] at hm
    cases hl : dlookup (derase s.session_keys a) b with
    | none => rw [hl] at hm; simp at hm
    | some m0 =>
      rw [hl] at hm
      simp only [Option.map_some', Option.some.injEq] at hm
      rw [← hm]
      exact dlookup_derase_self m0 a
  · intro b m hm
    rw [hrev] at hm
    dsimp only at hm
    rw [dlookup_mapVals] at hm
    cases hl : dlookup (derase s.key_timestamps a) b with
    | none => rw [hl] at hm; simp at hm
    | some m0 =>
      rw [hl] at hm
      simp only [Option.map_some', Option.some.injEq] at hm
      have hba : b ≠ a := by
        intro hba
        rw [hba, dlookup_derase_self] at hl
        exact Option.noConfusion hl
      have hkt : dlookup s.key_timestamps b = some m0 := by
        rw [← dlookup_derase_ne s.key_timestamps a b hba]
        exact hl
      have hsk : (dlookup s.session_keys b).isSome = true := by
        have hmem0 := dlookup_eq_some_mem _ _ _ hkt
        have := List.all_eq_true.mp hdom _ hmem0
        simpa using this
      have hsk1 : (dlookup (derase s.session_keys a) b).isSome = true := by
        rw [dlookup_derase_ne s.session_keys a b hba]
        exact hsk
      rw [hsk1] at hm
      simp only [if_true] at hm
      rw [← hm]
      exact dlookup_derase_self m0 a

/-- Claim C3: an already expired message (`now - timestamp > ttl`) is dropped
by `send_message` — no transmission, the drop counter incremented, `false`
returned, all other state untouched — and ignored by the dispatch path
`_process_message` — no handler invoked, no acknowledgment sent, no state
change. -/
theorem expired_message_dropped (s : EngineState) (now : Int) (m : V2VMessage)
    (target : Option String) (iv : Nat) (h : now - m.timestamp > m.ttl) :
    sendMessage s now m target iv =
      (false, { s with message_stats :=
        { s.message_stats with
            messages_dropped := s.message_stats.messages_dropped + 1 } }, []) ∧
    processMessage s now m iv = (s, [], []) := by
  have hexp : isMessageExpired now m = true := decide_eq_true h
  constructor
  · unfold sendMessage
    rw [if_pos hexp]
  · unfold processMessage
    rw [if_pos hexp]

/-- Claim C10: the `authentication_failures` counter is never incremented by
any engine operation (so it stays `0` from initialization), and every failure
of the receive path's decryption step is counted in `decryption_errors`. -/
theorem authentication_failures_never_incremented :
    (∀ (s : EngineState) (ops : List EngineOp),
      (runOps s ops).message_stats.authentication_failures =
        s.message_stats.authentication_failures) ∧
    (∀ (vehicleId : String) (sec : SMState) (prox : ProximityDetector)
        (ops : List EngineOp),
      (runOps (initEngine vehicleId sec prox) ops).message_stats.authentication_failures = 0) ∧
    (∀ (s : EngineState) (now : Int) (env : EncryptedMessage) (e : String),
      (decryptMessage s.security now env s.vehicle_id).1 = .error e →
      ((receiveMessage s now env).2).message_stats.decryption_errors =
        s.message_stats.decryption_errors + 1) := by
  have hrun : ∀ (ops : List EngineOp) (s : EngineState),
      (runOps s ops).message_stats.authentication_failures =
        s.message_stats.authentication_failures := by
    intro ops
    induction ops with
    | nil => intro s; rfl
    | cons op rest ih =>
      intro s
      show (runOps (engineStep s op) rest).message_stats.authentication_failures = _
      rw [ih, engineStep_auth]
  refine ⟨fun s ops => hrun ops s, fun vehicleId sec prox ops => hrun ops _, ?_⟩
  intro s now env e he
  unfold receiveMessage
  cases hd : decryptMessage s.security now env s.vehicle_id with
  | mk res sec1 =>
    rw [hd] at he
    simp only at he
    rw [he]

/-- Claim C1 (code bug): the encrypt/decrypt pair is *not* a round trip —
whatever envelope `encrypt_message` produces, `decrypt_message` raises, because
the GCM authentication tag is discarded at encryption time and the decryption
context is built without one. -/
theorem encrypt_then_decrypt_fails (s : SMState) (now : Int) (payload : PyVal)
    (a b mtype : String) (priority : Int) (iv : Nat) (em : EncryptedMessage)
    (s1 : SMState)
    (_h : encryptMessage s now payload a b mtype priority iv = (.ok em, s1)) :
    ∃ e, (decryptMessage s1 now em b).1 = .error e :=
  decryptMessage_not_ok s1 now em b

/-- Claim C4 (code bug): `receive_message` never dispatches anything — every
call fails at the decryption step (missing GCM tag), returns `false`, leaves
the queue and the received counter unchanged, and counts a decryption error,
so the duplicate-suppression logic is unreachable and no envelope, first or
second, is ever enqueued. -/
theorem receive_message_always_fails (s : EngineState) (now : Int)
    (env : EncryptedMessage) :
    (receiveMessage s now env).1 = false ∧
    (receiveMessage s now env).2.message_queue = s.message_queue ∧
    (receiveMessage s now env).2.message_stats.messages_received =
      s.message_stats.messages_received ∧
    (receiveMessage s now env).2.message_stats.decryption_errors =
      s.message_stats.decryption_errors + 1 := by
  obtain ⟨e, he⟩ := decryptMessage_not_ok s.security now env s.vehicle_id
  rcases hd : decryptMessage s.security now env s.vehicle_id with ⟨res, sec1⟩
  rw [hd] at he
  dsimp only at he
  subst he
  unfold receiveMessage
  rw [hd]
  exact ⟨rfl, rfl, rfl, rfl⟩

/-- Claim C7: the Haversine distance, read over the reals, vanishes on the
diagonal and is symmetric. -/
theorem distance_diag_zero_and_symm :
    (∀ p : Position, p.distanceTo p = 0) ∧
    (∀ a b : Position, a.distanceTo b = b.distanceTo a) := by
  constructor
  · intro p
    simp only [Position.distanceTo, radians, sub_self, zero_mul, zero_div,
      Real.sin_zero, atan2]
    norm_num [Real.arctan_zero]
  · intro a b
    simp only [Position.distanceTo]
    have hsin : ∀ x y : ℝ, Real.sin (radians (x - y) / 2) ^ 2 =
        Real.sin (radians (y - x) / 2) ^ 2 := by
      intro x y
      have h : radians (x - y) = -(radians (y - x)) := by
        simp only [radians]
        ring
      rw [h, neg_div, Real.sin_neg, neg_sq]
    rw [hsin b.latitude a.latitude, hsin b.longitude a.longitude,
      mul_comm (Real.cos (radians a.latitude)) (Real.cos (radians b.latitude))]

/-! ### Witness states -/

/-- A registered identity "A" with valid certificate. -/
def wIdA : VehicleIdentity :=
  { vehicle_id := "A", certificate := some 1, private_key := some 10,
    public_key := some 10, expires_at := some 1000 }

/-- A registered identity "B" with valid certificate. -/
def wIdB : VehicleIdentity :=
  { vehicle_id := "B", certificate := some 2, private_key := some 20,
    public_key := some 20, expires_at := some 1000 }

/-- A two-vehicle security-manager state with an established session key. -/
def wSM : SMState :=
  { vehicle_identities := [("A", wIdA), ("B", wIdB)],
    session_keys := [("A", [("B", 5)]), ("B", [("A", 5)])],
    key_timestamps := [("A", [("B", 0)]), ("B", [("A", 0)])] }

/-- The encryption run used by the C1 witness. -/
def c1Run : Except String EncryptedMessage × SMState :=
  encryptMessage wSM 100 (.pdict []) "A" "B" "spatial_data" 3 7

/-- The envelope produced by that run. -/
def c1Env : EncryptedMessage :=
  match c1Run.1 with
  | .ok em => em
  | .error _ => ⟨⟨0, 0, .pnone⟩, 0, ⟨0, ⟨⟨0, 0, .pnone⟩, 0, "", 0, "", 0⟩⟩, "", 0, "", 0⟩

theorem c1_roundtrip_witness : ∃ e, (decryptMessage c1Run.2 100 c1Env "B").1 = .error e :=
  encrypt_then_decrypt_fails wSM 100 (.pdict []) "A" "B" "spatial_data" 3 7
    c1Env c1Run.2 (by rfl)

theorem c2_revoke_witness :
    ((dlookup wSM.vehicle_identities "A").isSome = true) ∧
    (wSM.key_timestamps.all (fun p => (dlookup wSM.session_keys p.1).isSome) = true) ∧
    isVehicleAuthorized (revokeVehicle wSM "A").1 99 "A" = false ∧
    encryptMessage (revokeVehicle wSM "A").1 99 (.pdict []) "A" "B" "spatial_data" 3 7 =
      (.error ("Unauthorized sender: " ++ "A"), (revokeVehicle wSM "A").1) ∧
    dlookup (revokeVehicle wSM "A").1.session_keys "A" = none ∧
    dlookup (revokeVehicle wSM "A").1.key_timestamps "A" = none := by
  have h := revoke_vehicle_purges wSM "A" 99 (by rfl) (by rfl)
  exact ⟨by rfl, by rfl, h.1,
    h.2.1 (revokeVehicle wSM "A").1 99 (.pdict []) "B" "spatial_data" 3 7 h.2.2.1,
    h.2.2.2.1, h.2.2.2.2.1⟩

/-- An empty proximity detector with the default 1000 m range. -/
noncomputable def wDet : ProximityDetector := { communication_range := {} }

/-- A protocol engine for vehicle "V" over the witness security state. -/
noncomputable def wEng : EngineState := initEngine "V" wSM wDet

/-- An already expired message: sent at time 0 with `ttl = 5`, examined at 10. -/
def c3Msg : V2VMessage :=
  { message_id := "m1", message_type := .heartbeat, sender_id := "V",
    timestamp := 0, ttl := 5 }

theorem c3_expired_witness :
    ((10 : Int) - c3Msg.timestamp > c3Msg.ttl) ∧
    sendMessage wEng 10 c3Msg none 0 =
      (false, { wEng with message_stats :=
        { wEng.message_stats with
            messages_dropped := wEng.message_stats.messages_dropped + 1 } }, []) ∧
    processMessage wEng 10 c3Msg 0 = (wEng, [], []) := by
  have h := expired_message_dropped wEng 10 c3Msg none 0 (by decide)
  exact ⟨by decide, h.1, h.2⟩

/-- Spatial snapshot of vehicle "A" (the coordinates of the proximity claim). -/
noncomputable def wSdA : SpatialData :=
  { vehicle_id := "A",
    position := { latitude := 37.7749, longitude := -122.4194 },
    velocity := { speed := 15, heading := 90 },
    acceleration := { linear_acceleration := 0 } }

/-- Spatial snapshot of vehicle "B", about 130 m away from "A". -/
noncomputable def wSdB : SpatialData :=
  { vehicle_id := "B",
    position := { latitude := 37.7759, longitude := -122.4184 },
    velocity := { speed := 15, heading := 90 },
    acceleration := { linear_acceleration := 0 } }

/-- A detector tracking the two witness vehicles as mutually nearby. -/
noncomputable def wDet2 : ProximityDetector :=
  { communication_range := {},
    vehicle_positions := [("A", wSdA), ("B", wSdB)],
    nearby_vehicles := [("A", ["B"]), ("B", ["A"])],
    vehicle_last_seen := [("A", 0), ("B", 0)] }

theorem c8_distance_witness :
    getVehicleDistance wDet2 "A" "B" = some (wSdA.position.distanceTo wSdB.position) :=
  (get_vehicle_distance_total wDet2 "A" "B").2 wSdA wSdB rfl rfl

theorem c9_remove_witness :
    ("B" ≠ "A") ∧ ("A" ∈ nearbyGet wDet2 "B") ∧
    isVehicleNearby (removeVehicle wDet2 0 "A").1 "B" "A" = true := by
  have hmem : "A" ∈ nearbyGet wDet2 "B" := by
    rw [show nearbyGet wDet2 "B" = ["A"] from rfl]
    exact List.mem_cons_self _ _
  have h := remove_vehicle_frame wDet2 0 "A" "B" (by decide)
  exact ⟨by decide, hmem, h.2.2.2 hmem⟩

/-- An arbitrary envelope addressed to the unregistered engine vehicle "V". -/
def c10Env : EncryptedMessage :=
  ⟨⟨5, 7, .pdict []⟩, 7, ⟨10, ⟨⟨5, 7, .pdict []⟩, 7, "A", 100, "spatial_data", 3⟩⟩,
   "A", 100, "spatial_data", 3⟩

theorem c10_stats_witness :
    (decryptMessage wEng.security 5 c10Env wEng.vehicle_id).1 =
      .error ("Unauthorized receiver: " ++ "V") ∧
    ((receiveMessage wEng 5 c10Env).2).message_stats.decryption_errors =
      wEng.message_stats.decryption_errors + 1 := by
  have h := authentication_failures_never_incremented
  exact ⟨by rfl, h.2.2 wEng 5 c10Env ("Unauthorized receiver: " ++ "V") (by rfl)⟩

/-! ### The proximity-pair scenario (claim C5) -/

theorem arctan_le_self (x : ℝ) (hx : 0 ≤ x) : Real.arctan x ≤ x := by
  rcases eq_or_lt_of_le hx with h | h
  · rw [← h, Real.arctan_zero]
  · have h1 : 0 < Real.arctan x := by
      have h2 := Real.arctan_strictMono h
      rwa [Real.arctan_zero] at h2
    have h2 : Real.arctan x < Real.pi / 2 := Real.arctan_lt_pi_div_two x
    have h3 := Real.lt_tan h1 h2
    rw [Real.tan_arctan] at h3
    exact h3.le

theorem hav_core (a : ℝ) (haA : a ≤ 1 / 3600000000) :
    6371000 * (2 * atan2 (Real.sqrt a) (Real.sqrt (1 - a))) ≤ 1000 := by
  have hden : (1/2 : ℝ) ≤ Real.sqrt (1 - a) := by
    rw [Real.le_sqrt (by norm_num) (by linarith)]
    linarith
  have hdenpos : (0 : ℝ) < Real.sqrt (1 - a) := lt_of_lt_of_le (by norm_num) hden
  have hnum : Real.sqrt a ≤ 1 / 60000 := by
    rw [Real.sqrt_le_iff]
    constructor
    · norm_num
    · nlinarith
  have ht0 : 0 ≤ Real.sqrt a / Real.sqrt (1 - a) :=
    div_nonneg (Real.sqrt_nonneg a) hdenpos.le
  have ht : Real.sqrt a / Real.sqrt (1 - a) ≤ 1 / 30000 := by
    have hd := div_le_div₀ (by norm_num : (0:ℝ) ≤ 1/60000) hnum
      (by norm_num : (0:ℝ) < 1/2) hden
    calc Real.sqrt a / Real.sqrt (1 - a) ≤ (1/60000) / (1/2) := hd
      _ = 1 / 30000 := by norm_num
  have hat : atan2 (Real.sqrt a) (Real.sqrt (1 - a)) =
      Real.arctan (Real.sqrt a / Real.sqrt (1 - a)) := by
    unfold atan2
    rw [if_pos hdenpos]
  rw [hat]
  have harc := le_trans (arctan_le_self _ ht0) ht
  linarith

/-- The two claim-C5 positions are within the default 1000 m range (they are
about 130 m apart). -/
theorem c5_dist_le : wSdB.position.distanceTo wSdA.position ≤ 1000 := by
  have hpi0 := Real.pi_pos
  have hpi4 := Real.pi_le_four
  simp only [Position.distanceTo, wSdB, wSdA]
  rw [show (37.7749 : ℝ) - 37.7759 = -(1/1000) by norm_num]
  rw [show (-122.4194 : ℝ) - -122.4184 = -(1/1000) by norm_num]
  rw [show radians (-(1/1000)) = -(Real.pi/180000) by simp only [radians]; ring]
  rw [show -(Real.pi/180000)/2 = -(Real.pi/360000) by ring]
  rw [Real.sin_neg, neg_sq]
  have hc1 : Real.cos (radians 37.7759) ≤ 1 := Real.cos_le_one _
  have hc2 : Real.cos (radians 37.7749) ≤ 1 := Real.cos_le_one _
  have hc1p : 0 ≤ Real.cos (radians 37.7759) := by
    apply Real.cos_nonneg_of_mem_Icc
    rw [Set.mem_Icc]
    unfold radians
    constructor
    · nlinarith
    · nlinarith
  have hc2p : 0 ≤ Real.cos (radians 37.7749) := by
    apply Real.cos_nonneg_of_mem_Icc
    rw [Set.mem_Icc]
    unfold radians
    constructor
    · nlinarith
    · nlinarith
  have hs0 : 0 ≤ Real.sin (Real.pi/360000) := by
    apply Real.sin_nonneg_of_nonneg_of_le_pi
    · positivity
    · linarith
  have hs : Real.sin (Real.pi/360000) ≤ Real.pi/360000 := Real.sin_le (by positivity)
  have hsqA : Real.sin (Real.pi/360000)^2 ≤ 1/8100000000 := by nlinarith
  have hcc : Real.cos (radians 37.7759) * Real.cos (radians 37.7749) ≤ 1 := by
    nlinarith
  have hterm := mul_le_of_le_one_left (sq_nonneg (Real.sin (Real.pi/360000))) hcc
  apply hav_core
  linarith

/-- First update of the C5 scenario: vehicle "A" into the empty detector. -/
noncomputable def c5Run1 : ProximityDetector × List ProximityEvent :=
  updateVehiclePosition wDet 0 wSdA

/-- Second update of the C5 scenario: vehicle "B". -/
noncomputable def c5Run2 : ProximityDetector × List ProximityEvent :=
  updateVehiclePosition c5Run1.1 1 wSdB

/-- All proximity events emitted during the C5 scenario. -/
noncomputable def c5Events : List ProximityEvent := c5Run1.2 ++ c5Run2.2

theorem c5_run1_eq : c5Run1 =
    ({ communication_range := ({} : CommunicationRange),
       vehicle_positions := [("A", wSdA)],
       nearby_vehicles := [("A", [])],
       vehicle_last_seen := [("A", 0)] }, []) := by
  unfold c5Run1 updateVehiclePosition checkNewVehicleProximity wDet
  simp [wSdA, dlookup, dinsert, derase]

/-- The single event emitted in the C5 scenario. -/
noncomputable def c5Ev : ProximityEvent :=
  { event_type := "vehicle_entered", vehicle_id := "B",
    distance := wSdB.position.distanceTo wSdA.position,
    timestamp := 1, metadata := .target "A" }

theorem c5_run2_eq : c5Run2 =
    ({ communication_range := ({} : CommunicationRange),
       vehicle_positions := [("B", wSdB), ("A", wSdA)],
       nearby_vehicles := [("B", ["A"]), ("A", ["B"])],
       vehicle_last_seen := [("B", 1), ("A", 0)] }, [c5Ev]) := by
  have hin : isWithinCommunicationRange wSdB wSdA 1000 := by
    show wSdB.position.distanceTo wSdA.position ≤ _
    exact c5_dist_le
  unfold c5Run2 updateVehiclePosition checkNewVehicleProximity
  rw [c5_run1_eq]
  simp [dlookup, dinsert, derase, saddList, hin, c5Ev,
    show wSdB.vehicle_id = "B" from rfl, show wSdA.vehicle_id = "A" from rfl]

/-- Claim C5 counterexample: in the two-update scenario the detector emits
exactly one `vehicle_entered` event in total — not two, and none with subject
"A". -/
theorem c5_pair_events_counterexample :
    c5Events.length = 1 ∧ ¬ (c5Events.length = 2) ∧
    c5Events.countP (fun e => e.vehicle_id == "A") = 0 := by
  have h : c5Events = [c5Ev] := by
    unfold c5Events
    rw [c5_run1_eq, c5_run2_eq]
    rfl
  rw [h]
  refine ⟨rfl, by decide, ?_⟩
  simp [c5Ev, List.countP_cons]

/-- Claim C5 (amended): after the two updates the vehicles are mutually
nearby, and exactly one `vehicle_entered` event is emitted for the pair, with
subject the newly updated vehicle "B" and target "A". -/
theorem c5_mutual_nearby_single_event :
    "B" ∈ nearbyGet c5Run2.1 "A" ∧ "A" ∈ nearbyGet c5Run2.1 "B" ∧
    c5Events.map (fun e => (e.event_type, e.vehicle_id, e.metadata.targetVehicle)) =
      [("vehicle_entered", "B", some "A")] := by
  have h : c5Events = [c5Ev] := by
    unfold c5Events
    rw [c5_run1_eq, c5_run2_eq]
    rfl
  refine ⟨?_, ?_, ?_⟩
  · rw [c5_run2_eq]
    simp [nearbyGet, dlookup]
  · rw [c5_run2_eq]
    simp [nearbyGet, dlookup]
  · rw [h]
    simp [c5Ev, ProximityMeta.targetVehicle]

end V2V
